import Mathlib

/-
Verification of the poretools `Fast5File` module (src/poretools/Fast5File.py):
a shallow embedding of the FAST5 container reader — schema-version detection,
the version-keyed path-resolution table, raw-read timing derivation, metadata
extraction, per-strand sequence/event extraction, and the archive enumerator —
together with theorems settling the behavioural claims about it.

Machine conventions of the embedding:
* Python exceptions and `sys.exit` are modelled by `Except PErr`; a function
  that cannot raise is given a plain (non-`Except`) result type.
* An HDF5 container is modelled by the facets the module reads: a flat map
  from internal path strings to nodes (`h5`), the `Raw/Reads` group's ordered
  children, and the resolved metadata root (`keyinfo`).
* Python's `'%03d' % g` zero padding is `fmt3`; `str.format` substitution of
  the `\x7b:03d\x7d` slot is `pyFormatBraces`; old-style `%` substitution
  (which raises TypeError when the format string holds no `%` conversion,
  as happens for every template in `fastq_paths`) is `pyFormatPercent`.
* Sample counts, frequencies and epoch timestamps are `Nat`; the one value
  the code produces by true division (`get_duration`) is a rational.
-/

/-- Python-level failure: an exception (`raise`) or process termination
(`sys.exit`). -/
inductive PErr where
  | exc (msg : String)
  | sysExit (msg : String)
deriving DecidableEq, Repr

/-- Zero-padded decimal rendering of a natural number to minimum width 3:
the meaning of Python's `%03d` / `\x7b:03d\x7d` for a non-negative argument. -/
def fmt3 (n : Nat) : String :=
  let s := toString n
  if s.length < 3 then ⟨List.replicate (3 - s.length) '0' ++ s.data⟩ else s

/-- Left brace character, kept out of string/char literals. -/
def lbraceChar : Char := Char.ofNat 123

/-- Right brace character, kept out of string/char literals. -/
def rbraceChar : Char := Char.ofNat 125

/-- Substitute every `\x7b:03d\x7d` slot in a character list by `arg`:
the behaviour of Python's `str.format` on the templates used in this module.
The `fuel` argument (instantiated with the list's length, an upper bound on
the number of steps, each of which consumes at least one character) makes the
recursion structural so that the kernel can evaluate it. -/
def formatSlot (arg : List Char) : Nat → List Char → List Char
  | 0, l => l
  | _ + 1, [] => []
  | fuel + 1, c :: rest =>
    if c = lbraceChar then
      match rest with
      | ':' :: '0' :: '3' :: 'd' :: c6 :: r =>
        if c6 = rbraceChar then arg ++ formatSlot arg fuel r
        else c :: formatSlot arg fuel rest
      | _ => c :: formatSlot arg fuel rest
    else c :: formatSlot arg fuel rest

/-- `s.format(n)` for the `\x7b:03d\x7d` slot (extra argument with no slot is
not an error in Python: the string is returned unchanged). -/
def pyFormatBraces (s : String) (n : Nat) : String :=
  ⟨formatSlot (fmt3 n).data s.data.length s.data⟩

/-- Does the character list contain a percent sign? -/
def hasPercent : List Char → Bool
  | [] => false
  | c :: rest => c = '%' || hasPercent rest

/-- Substitute every `%03d` slot in a character list by `arg` (fuel-driven
exactly as `formatSlot`). -/
def percentSlot (arg : List Char) : Nat → List Char → List Char
  | 0, l => l
  | _ + 1, [] => []
  | fuel + 1, c :: rest =>
    if c = '%' then
      match rest with
      | '0' :: '3' :: 'd' :: r => arg ++ percentSlot arg fuel r
      | _ => c :: percentSlot arg fuel rest
    else c :: percentSlot arg fuel rest

/-- Python's old-style `s % n`: substitutes a `%03d` conversion when present;
when the string holds no `%` conversion at all, Python raises
`TypeError: not all arguments converted during string formatting`. -/
def pyFormatPercent (s : String) (n : Nat) : Except String String :=
  if hasPercent s.data then .ok ⟨percentSlot (fmt3 n).data s.data.length s.data⟩
  else .error "not all arguments converted during string formatting"

/-- The five schema versions a handle can carry (`Fast5File.version`):
the four detected by `guess_version` plus the `closed` sentinel used when the
container failed to open. -/
inductive SchemaVersion where
  | classic
  | metrichor116
  | r9rnn
  | prebasecalled
  | closed
deriving DecidableEq, Repr

/-- The string the source stores for each version. -/
def SchemaVersion.vname : SchemaVersion → String
  | .classic => "classic"
  | .metrichor116 => "metrichor1.16"
  | .r9rnn => "r9rnn"
  | .prebasecalled => "prebasecalled"
  | .closed => "closed"

/-- First probe of `Fast5File.guess_version`:
`"/Analyses/Basecall_2D_%03d/BaseCalled_template" % group`. -/
def classicProbe (g : Nat) : String :=
  "/Analyses/Basecall_2D_" ++ fmt3 g ++ "/BaseCalled_template"

/-- Second probe of `Fast5File.guess_version`:
`"/Analyses/Basecall_1D_%03d/BaseCalled_template" % group`. -/
def metrichorProbe (g : Nat) : String :=
  "/Analyses/Basecall_1D_" ++ fmt3 g ++ "/BaseCalled_template"

/-- Third probe of `Fast5File.guess_version`:
`"/Analyses/Basecall_RNN_1D_%03d/BaseCalled_template" % group`. -/
def rnnProbe (g : Nat) : String :=
  "/Analyses/Basecall_RNN_1D_" ++ fmt3 g ++ "/BaseCalled_template"

/-- `Fast5File.guess_version`, over the container's path-existence predicate:
each `self.hdf5file[path]` probe either succeeds (path exists) or raises
`KeyError` (path absent), which the source catches and treats as "try the
next probe"; when all probes fail the version is `prebasecalled`. -/
def guess_version (exist : String → Bool) (g : Nat) : SchemaVersion :=
  if exist (classicProbe g) then .classic
  else if exist (metrichorProbe g) then .metrichor116
  else if exist (rnnProbe g) then .r9rnn
  else .prebasecalled

/-- The probe order stated by the spec (§4.3): classic, then metrichor-1.16,
then r9rnn, each paired with the version it detects. Written from the spec's
words, to be compared with `guess_version` (the source's translation). -/
def specProbeOrder (g : Nat) : List (String × SchemaVersion) :=
  [(classicProbe g, .classic), (metrichorProbe g, .metrichor116),
   (rnnProbe g, .r9rnn)]

/-- "The first one found wins. If none are found, version = prebasecalled."
Written from the spec's words. -/
def specFirstFound (exist : String → Bool) :
    List (String × SchemaVersion) → SchemaVersion
  | [] => .prebasecalled
  | (p, v) :: rest => if exist p then v else specFirstFound exist rest

/-- The module-level `fastq_paths` dictionary: for each schema version, the
ordered association of strand names to path templates, exactly as in the
source (dictionary insertion order preserved). -/
def fastq_paths : SchemaVersion → List (String × String)
  | .closed => []
  | .r9rnn =>
      [("template", "/Analyses/Basecall_RNN_1D_\x7b:03d\x7d/BaseCalled_template")]
  | .metrichor116 =>
      [("template", "/Analyses/Basecall_1D_\x7b:03d\x7d/BaseCalled_template"),
       ("complement", "/Analyses/Basecall_1D_\x7b:03d\x7d/BaseCalled_complement"),
       ("twodirections", "/Analyses/Basecall_2D_\x7b:03d\x7d/BaseCalled_2D"),
       ("pre_basecalled", "/Analyses/EventDetection_000/Reads/")]
  | .classic =>
      [("template", "/Analyses/Basecall_2D_\x7b:03d\x7d/BaseCalled_template"),
       ("complement", "/Analyses/Basecall_2D_\x7b:03d\x7d/BaseCalled_complement"),
       ("twodirections", "/Analyses/Basecall_2D_\x7b:03d\x7d/BaseCalled_2D"),
       ("pre_basecalled", "/Analyses/EventDetection_000/Reads/")]
  | .prebasecalled =>
      [("pre_basecalled", "/Analyses/EventDetection_000/Reads/")]

/-- Dictionary-style lookup of a strand's template under a version:
`fastq_paths[version].get(strand)` semantics — absence is `none`, never an
error. -/
def fastq_paths_lookup (v : SchemaVersion) (strand : String) : Option String :=
  (fastq_paths v).lookup strand

/-- An HDF5 object as consumed by this module: a group (named children, named
integer-valued attributes) or a dataset (attributes, decoded text, and the
rows of a structured table such as `Events`, each row abstracted to an
identifier). -/
inductive H5Data where
  | group (attrs : List (String × Nat)) (children : List (String × H5Data))
  | dataset (attrs : List (String × Nat)) (text : String) (rows : List Nat)

/-- `node.attrs[nm]` as an optional value. -/
def H5Data.attr : H5Data → String → Option Nat
  | .group as _, nm => as.lookup nm
  | .dataset as _ _, nm => as.lookup nm

/-- `node.get(nm)`: child lookup that returns `None` instead of raising. -/
def h5childOpt : H5Data → String → Option H5Data
  | .group _ cs, nm => cs.lookup nm
  | .dataset _ _ _, _ => none

/-- The length of a node's `Events` table when it can be read
(`len(table['Events'][()])`); `none` when the child is missing or is not a
dataset (any such failure raises in Python, callers catch it). -/
def h5eventsLen : H5Data → Option Nat
  | .group _ cs =>
    match cs.lookup "Events" with
    | some (.dataset _ _ rows) => some rows.length
    | some (.group _ _) => none
    | none => none
  | .dataset _ _ _ => none

/-- The rows of a node's `Events` table (`table[read]["Events"][()]`), raising
as Python does when the child is missing or the node is not a group. -/
def h5eventsRows : H5Data → Except PErr (List Nat)
  | .group _ cs =>
    match cs.lookup "Events" with
    | some (.dataset _ _ rows) => .ok rows
    | some (.group _ _) => .error (.exc "TypeError")
    | none => .error (.exc "KeyError: Events")
  | .dataset _ _ _ => .error (.exc "TypeError")

/-- The two on-container storage forms of `exp_start_time`: an ISO-8601
UTC-suffixed string is `isoUTC e` where `e` is the integer epoch value its
`dateutil` parse and `time.mktime` round-trip produces (those libraries are
external to the repository and are modelled by the value they return); a raw
integer Unix timestamp attribute is `rawInt e`. -/
inductive TimeAttr where
  | isoUTC (epoch : Nat)
  | rawInt (epoch : Nat)
deriving DecidableEq, Repr

/-- The tracking/context attributes the timing code reads from the resolved
metadata root (`self.keyinfo`): `tracking_id.attrs['exp_start_time']` and
`context_tags.attrs['sample_frequency']`, each `none` when the sub-group or
attribute is missing. -/
structure Keyinfo where
  exp_start_time : Option TimeAttr
  sample_frequency : Option Nat

/-- A child of the `Raw/Reads` group with the attributes the timing code
reads from it (`duration` and `start_time` in raw sample counts, `none` when
the attribute is missing). -/
structure RawChild where
  name : String
  duration : Option Nat
  start_time : Option Nat
deriving DecidableEq, Repr

/-- An opened `Fast5File` handle: the facets of the container state that the
methods under verification read.  `h5` is `self.hdf5file` as a map from
internal path strings to nodes; `rawReads` is the `Raw/Reads` group (`none`
when absent, otherwise its ordered children); `keyinfo` is the memoized
metadata root (`none` when neither well-known root exists). -/
structure Handle where
  filename : String
  group : Nat
  version : SchemaVersion
  h5 : String → Option H5Data
  rawReads : Option (List RawChild)
  keyinfo : Option Keyinfo

/-- The diagnostic built by `Fast5File.hdf_internal_error` before it calls
`sys.exit`: it names the offending file and the violated structural
expectation. -/
def hdf_internal_error_msg (filename reason : String) : String :=
  "poretools internal error in file '" ++ filename ++ "':\n" ++ reason ++
  "\nPlease report this error (with the offending file) to:\n" ++
  "    https://github.com/arq5x/poretools/issues"

/-- `Fast5File.find_read_number_block_fixed_raw`: `Raw/Reads` absent gives
`None`; zero children or more than one child terminates the process through
`hdf_internal_error`; exactly one child resolves to that child.  (The source
re-fetches the child by path and would also terminate if that fetch returned
`None`; in the model the group's listed child is the fetched node.) -/
def find_read_number_block_fixed_raw (h : Handle) :
    Except PErr (Option RawChild) :=
  match h.rawReads with
  | none => .ok none
  | some reads =>
    match reads with
    | [] => .error (.sysExit (hdf_internal_error_msg h.filename
        "Raw/Reads group does not contain any items"))
    | [r] => .ok (some r)
    | _ :: _ :: _ => .error (.sysExit (hdf_internal_error_msg h.filename
        "Raw/Reads group contains more than one item"))

/-- `Fast5File.get_sample_frequency`:
`int(self.keyinfo['context_tags'].attrs['sample_frequency'])` with every
failure (including an absent metadata root) caught and turned into `None`. -/
def get_sample_frequency (h : Handle) : Option Nat :=
  h.keyinfo.bind Keyinfo.sample_frequency

/-- `Fast5File.get_exp_start_time`: when the attribute string ends in the UTC
marker `Z` it is parsed with `dateutil` and converted through `time.mktime`
to an integer epoch value, otherwise it is parsed as a raw integer Unix
timestamp; only `KeyError` (missing sub-group or attribute) is caught and
becomes `None` — an absent metadata root makes `self.keyinfo['tracking_id']`
raise `TypeError`, which propagates. -/
def get_exp_start_time (h : Handle) : Except PErr (Option Nat) :=
  match h.keyinfo with
  | none => .error (.exc "TypeError: NoneType is not subscriptable")
  | some k =>
    match k.exp_start_time with
    | none => .ok none
    | some (.isoUTC e) => .ok (some e)
    | some (.rawInt e) => .ok (some e)

/-- `Fast5File.find_event_timing_block`: the template path template is looked
up and `%`-formatted *outside* the `try` block, so a version without a
`template` entry raises `KeyError` and — since every template in
`fastq_paths` is written with a `\x7b:03d\x7d` slot and holds no `%`
conversion — the `%` formatting itself raises `TypeError`; inside the `try`,
any failure returns `None`. -/
def find_event_timing_block (h : Handle) : Except PErr (Option H5Data) :=
  match fastq_paths_lookup h.version "template" with
  | none => .error (.exc "KeyError: template")
  | some tmpl =>
    match pyFormatPercent tmpl h.group with
    | .error m => .error (.exc m)
    | .ok path =>
      .ok (match h.h5 path with
           | none => none
           | some node => h5childOpt node "Events")

/-- `Fast5File.get_duration`: the fixed-raw branch returns
`int(duration) / sample_frequency` (true division — a rational) when the
single raw read's `duration` attribute and a non-zero sample frequency are
available; any failure in that branch is caught and control falls through to
`find_event_timing_block`. -/
def get_duration (h : Handle) : Except PErr (Option ℚ) :=
  match find_read_number_block_fixed_raw h with
  | .error e => .error e
  | .ok rawOpt =>
    let rawVal : Option ℚ :=
      match rawOpt with
      | some r =>
        match r.duration, get_sample_frequency h with
        | some d, some f => if f = 0 then none else some ((d : ℚ) / (f : ℚ))
        | _, _ => none
      | none => none
    match rawVal with
    | some v => .ok (some v)
    | none =>
      match find_event_timing_block h with
      | .error e => .error e
      | .ok none => .ok none
      | .ok (some node) =>
        match node.attr "duration" with
        | some d => .ok (some (d : ℚ))
        | none => .error (.exc "KeyError: duration")

/-- `Fast5File.get_start_time`: experiment start epoch plus the raw read's
`start_time` divided by the sample frequency (float division then `int`
truncation: natural-number division of the non-negative sample count); any
failure in the raw branch is caught and control falls through to
`find_event_timing_block`. -/
def get_start_time (h : Handle) : Except PErr (Option Nat) :=
  match get_exp_start_time h with
  | .error e => .error e
  | .ok expOpt =>
    match find_read_number_block_fixed_raw h with
    | .error e => .error e
    | .ok rawOpt =>
      let rawVal : Option Nat :=
        match rawOpt with
        | some r =>
          match get_sample_frequency h, expOpt, r.start_time with
          | some f, some e, some st => if f = 0 then none else some (e + st / f)
          | _, _, _ => none
        | none => none
      match rawVal with
      | some v => .ok (some v)
      | none =>
        match find_event_timing_block h with
        | .error e => .error e
        | .ok none => .ok none
        | .ok (some node) =>
          match expOpt with
          | none => .error (.exc "TypeError: int() of None")
          | some e =>
            match node.attr "start_time" with
            | some st => .ok (some (e + st))
            | none => .error (.exc "KeyError: start_time")

/-- `Fast5File.get_end_time`: `start_time + duration` guarded by
`if start_time and (duration is not None)` — the start time is tested for
Python truthiness (so `0` falls into the `None` branch), the duration only
against `None`. -/
def get_end_time (h : Handle) : Except PErr (Option ℚ) :=
  match get_exp_start_time h with
  | .error e => .error e
  | .ok _ =>
    match get_start_time h with
    | .error e => .error e
    | .ok st =>
      match get_duration h with
      | .error e => .error e
      | .ok dur =>
        .ok (match st, dur with
             | some s, some d => if s = 0 then none else some ((s : ℚ) + d)
             | _, _ => none)

/-- `Fast5File.get_template_events_count`: path-template lookup, `%`
formatting, container access and `Events` read all sit inside one `try`, any
failure returning `0`. -/
def get_template_events_count (h : Handle) : Nat :=
  match fastq_paths_lookup h.version "template" with
  | none => 0
  | some tmpl =>
    match pyFormatPercent tmpl h.group with
    | .error _ => 0
    | .ok path =>
      match h.h5 path with
      | none => 0
      | some node => (h5eventsLen node).getD 0

/-- `Fast5File.get_complement_events_count`: as the template count, for the
`complement` entry. -/
def get_complement_events_count (h : Handle) : Nat :=
  match fastq_paths_lookup h.version "complement" with
  | none => 0
  | some tmpl =>
    match pyFormatPercent tmpl h.group with
    | .error _ => 0
    | .ok path =>
      match h.h5 path with
      | none => 0
      | some node => (h5eventsLen node).getD 0

/-- `Fast5File.is_high_quality`: complement event count at least the template
event count. -/
def is_high_quality (h : Handle) : Bool :=
  get_template_events_count h ≤ get_complement_events_count h

mutual
/-- Module-level `extract_data`: a group descends into its `Fastq` child
(`s["Fastq"]` raises `KeyError` when absent), a dataset decodes to its
text. -/
def extract_data : H5Data → Except PErr (Option String)
  | .dataset _ t _ => .ok (some t)
  | .group _ cs => extract_data_fastq_child cs

/-- Lookup of the `Fastq` child inside `extract_data`. -/
def extract_data_fastq_child :
    List (String × H5Data) → Except PErr (Option String)
  | [] => .error (.exc "KeyError: Fastq")
  | (nm, c) :: rest =>
    if nm = "Fastq" then extract_data c else extract_data_fastq_child rest
end

/-- Outcome of attempting one strand inside the extraction loops: a decoded
record, a silent skip (`if not table: continue`, which a Python-falsy empty
string also takes), or a caught failure with the exception text. -/
inductive StrandOutcome where
  | record (text : String)
  | skip
  | failed (msg : String)
deriving DecidableEq, Repr

/-- One strand of `Fast5File._extract_fastqs_from_fast5`:
`extract_data(self.hdf5file[h5path.format(self.group)])` with every failure
caught by the surrounding `try`. -/
def extractStrandFastq (h : Handle) (tmpl : String) : StrandOutcome :=
  match h.h5 (pyFormatBraces tmpl h.group) with
  | none => .failed ("KeyError: " ++ pyFormatBraces tmpl h.group)
  | some node =>
    match extract_data node with
    | .error (.exc m) => .failed m
    | .error (.sysExit m) => .failed m
    | .ok none => .skip
    | .ok (some t) => if t = "" then .skip else .record t

/-- One strand of `Fast5File._extract_fastas_from_fast5`: identical to the
FASTQ case except that the template is formatted with old-style `%`
(`h5path % self.group`), which raises `TypeError` for every template in
`fastq_paths` — caught by the surrounding `try`. -/
def extractStrandFasta (h : Handle) (tmpl : String) : StrandOutcome :=
  match pyFormatPercent tmpl h.group with
  | .error m => .failed m
  | .ok path =>
    match h.h5 path with
    | none => .failed ("KeyError: " ++ path)
    | some node =>
      match extract_data node with
      | .error (.exc m) => .failed m
      | .error (.sysExit m) => .failed m
      | .ok none => .skip
      | .ok (some t) => if t = "" then .skip else .record t

/-- The warning `_extract_fastqs_from_fast5` logs for a failed strand: the
f-string interpolates the filename and the exception text — it names the
file, not the strand. -/
def warnFastq (filename msg : String) : String :=
  "Could not extract FASTQ from " ++ filename ++ ": " ++ msg

/-- The warning `_extract_fastas_from_fast5` logs for a failed strand. -/
def warnFasta (filename msg : String) : String :=
  "Could not extract FASTA from " ++ filename ++ ": " ++ msg

/-- The `for id, h5path in fastq_paths[self.version].items()` loop of
`_extract_fastqs_from_fast5`, returning the accumulated strand records and
the warnings logged, in iteration order. -/
def extractFastqsLoop (h : Handle) :
    List (String × String) → List (String × String) × List String
  | [] => ([], [])
  | (id, tmpl) :: rest =>
    let prev := extractFastqsLoop h rest
    match extractStrandFastq h tmpl with
    | .record t => ((id, t) :: prev.1, prev.2)
    | .skip => prev
    | .failed m => (prev.1, warnFastq h.filename m :: prev.2)

/-- `Fast5File._extract_fastqs_from_fast5`: total — every per-strand failure
is caught inside the loop. -/
def extract_fastqs_from_fast5 (h : Handle) :
    List (String × String) × List String :=
  extractFastqsLoop h (fastq_paths h.version)

/-- The extraction loop of `_extract_fastas_from_fast5`. -/
def extractFastasLoop (h : Handle) :
    List (String × String) → List (String × String) × List String
  | [] => ([], [])
  | (id, tmpl) :: rest =>
    let prev := extractFastasLoop h rest
    match extractStrandFasta h tmpl with
    | .record t => ((id, t) :: prev.1, prev.2)
    | .skip => prev
    | .failed m => (prev.1, warnFasta h.filename m :: prev.2)

/-- `Fast5File._extract_fastas_from_fast5`: total — every per-strand failure
is caught inside the loop. -/
def extract_fastas_from_fast5 (h : Handle) :
    List (String × String) × List String :=
  extractFastasLoop h (fastq_paths h.version)

/-- The `for read in table` loop of `_extract_pre_basecalled_events`,
concatenating each child's `Events` rows; a child without a readable table
raises, uncaught. -/
def collectPreBasecalledEvents :
    List (String × H5Data) → Except PErr (List Nat)
  | [] => .ok []
  | (_, c) :: rest =>
    match h5eventsRows c with
    | .error e => .error e
    | .ok rows =>
      match collectPreBasecalledEvents rest with
      | .error e => .error e
      | .ok more => .ok (rows ++ more)

/-- `Fast5File._extract_pre_basecalled_events`: its `try`/`except` is
commented out in the source, so the table lookup
`self.hdf5file[fastq_paths[self.version]['pre_basecalled']]` and the per-read
`Events` reads raise to the caller — a version without a `pre_basecalled`
entry raises `KeyError` on the dictionary, a missing container path raises
`KeyError` on the file. -/
def extract_pre_basecalled_events (h : Handle) : Except PErr (List Nat) :=
  match fastq_paths_lookup h.version "pre_basecalled" with
  | none => .error (.exc "KeyError: pre_basecalled")
  | some path =>
    match h.h5 path with
    | none => .error (.exc ("KeyError: " ++ path))
    | some (.dataset _ _ _) => .error (.exc "TypeError")
    | some (.group _ cs) => collectPreBasecalledEvents cs

/-- The module-level set-type constants. -/
def FAST5SET_FILELIST : Nat := 0

/-- Directory set type. -/
def FAST5SET_DIRECTORY : Nat := 1

/-- Single-file set type. -/
def FAST5SET_SINGLEFILE : Nat := 2

/-- Tarball set type. -/
def FAST5SET_TARBALL : Nat := 3

/-- The fixed process-wide staging directory name. -/
def PORETOOLS_TMPDIR : String := ".poretools_tmp"

/-- `os.path.basename`: everything after the last path separator. -/
def basename (s : String) : String :=
  ⟨(s.data.reverse.takeWhile (· != '/')).reverse⟩

/-- Python `str.endswith` over the characters. -/
def strEndsWith (s suffix : String) : Bool := suffix.data.isSuffixOf s.data

/-- Python `str.startswith` over the characters. -/
def strStartsWith (s pre : String) : Bool := pre.data.isPrefixOf s.data

/-- `TarballFileIterator._fast5_filename_filter`: the entry's base name ends
with `.fast5` and does not start with the hidden-file marker `.`. -/
def fast5_filename_filter (nm : String) : Bool :=
  strEndsWith (basename nm) ".fast5" && !(strStartsWith (basename nm) ".")

/-- `TarballFileIterator.__next__` as executed by Python 3: the `while True`
loop's first statement is `tarinfo = next(self._tarfile)`, and the builtin
`next` requires its receiver to define `__next__` — `tarfile.TarFile` defines
`__iter__` and the legacy Python-2 `next()` *method* but no `__next__` — so
every call raises `TypeError` before the `None` guard, the filename filter
or the extraction can run, independent of the archive's contents.  (The
`if tarinfo is None: raise StopIteration` guard below the call is dead code
written for the Python-2 `TarFile.next()` protocol, which returned the next
member or `None`.) -/
def tarballFileIteratorNextPy3 : Except PErr String :=
  .error (.exc "TypeError: TarFile object is not an iterator")

/-- The staged paths collected by a loop that keeps pulling `__next__`
results until a pull raises (exhaustion or any error): each successful pull
contributes its staged path, the first failing pull ends the drain. -/
def drainStagedPaths : List (Except PErr String) → List String
  | [] => []
  | .ok p :: rest => p :: drainStagedPaths rest
  | .error _ :: _ => []

/-- Modelled from the spec: §4.2's archive staging — the sequence of staged
paths a fully drained `TarballFileIterator` was *written* to produce over
the archive's entries in native order (each matching entry extracted to the
staging directory and its joined path yielded, every other entry skipped).
This is the loop body's evident intent, reachable only under the Python-2
`TarFile.next()` protocol that the source's dead `None` guard anticipates;
the Python-3 source never reaches it (see `tarballFileIteratorNextPy3`). -/
def tarballStagedPathsIntended : List String → List String
  | [] => []
  | nm :: rest =>
    if fast5_filename_filter nm
    then (PORETOOLS_TMPDIR ++ "/" ++ nm) :: tarballStagedPathsIntended rest
    else tarballStagedPathsIntended rest

/-- `TarballFileIterator.__len__`: re-opens the archive and returns
`len(tar.getnames())` — the number of *all* entries, matching or not. -/
def tarball_len (entries : List String) : Nat := entries.length

/-- The classified input of `Fast5FileSet._extract_fast5_files`: an explicit
list of more than one path, a recursively walked directory (holding the file
paths the walk collected), a recognized tar archive (holding its entry
names), or a single plain file. -/
inductive SourceInput where
  | filelist (paths : List String)
  | directory (walked : List String)
  | tarball (entries : List String)
  | singlefile (path : String)

/-- The `(set_type, num_files_in_set)` pair `_extract_fast5_files`
establishes for each source kind: known immediately for list, directory and
single file; `None` (deferred) for a tarball. -/
def initSet : SourceInput → Nat × Option Nat
  | .filelist ps => (FAST5SET_FILELIST, some ps.length)
  | .directory ws => (FAST5SET_DIRECTORY, some ws.length)
  | .tarball _ => (FAST5SET_TARBALL, none)
  | .singlefile _ => (FAST5SET_SINGLEFILE, some 1)

/-- `Fast5FileSet.get_num_files`: when the cached count is `None` and the set
is a tarball, compute and cache `len(self.files)` (the iterator's `__len__`);
otherwise return the cache. -/
def get_num_files (set_type : Nat) (cached : Option Nat)
    (entries : List String) : Option Nat :=
  if cached = none ∧ set_type = FAST5SET_TARBALL then some (tarball_len entries)
  else cached

/-- `shutil.rmtree` with default options over the staging directory's
existence state: removes an existing directory, raises `FileNotFoundError`
when it is already absent. -/
def rmtree (dirExists : Bool) : Except PErr Unit :=
  if dirExists then .ok () else .error (.exc "FileNotFoundError")

/-- What one `Fast5FileSet.__next__` call delivers to the consuming loop,
together with the staging directory's existence state afterwards. -/
inductive NextRes where
  | item (path : String) (tmpdir : Bool)
  | stop (tmpdir : Bool)
  | exc (e : PErr) (tmpdir : Bool)
deriving DecidableEq, Repr

/-- `Fast5FileSet.__next__`: `pull` is the guarded expression
`Fast5File(next(self.files), self.group)` — `.ok` when a handle was built,
`.error` when the sequence is exhausted (`StopIteration`) or any error was
raised.  On error, a tarball set first calls `shutil.rmtree` on the staging
directory (whose failure propagates instead of the `StopIteration`), then
signals exhaustion. -/
def fast5set_next (set_type : Nat) (tmpdir : Bool)
    (pull : Except PErr String) : NextRes :=
  match pull with
  | .ok p => .item p tmpdir
  | .error _ =>
    if set_type = FAST5SET_TARBALL then
      match rmtree tmpdir with
      | .ok _ => .stop false
      | .error e => .exc e tmpdir
    else .stop tmpdir

/-- The end-time value the amended C4 claim predicts from the two accessors'
results: `start + duration` when the start is non-absent and non-zero and
the duration non-absent, absent otherwise. -/
def endTimeOfParts (ost : Option Nat) (odur : Option ℚ) : Option ℚ :=
  match ost, odur with
  | some s, some d => if s = 0 then none else some ((s : ℚ) + d)
  | _, _ => none

/-- Handle with an empty `Raw/Reads` group, for the C3 witness. -/
def c3handle0 : Handle :=
  ⟨"h0.fast5", 0, .closed, fun _ => none, some [], none⟩

/-- Handle with a single raw read child and full metadata, for C3. -/
def c3handle1 : Handle :=
  ⟨"h1.fast5", 0, .closed, fun _ => none,
   some [⟨"read_7", some 5, some 8000⟩],
   some ⟨some (.rawInt 100), some 4000⟩⟩

/-- Handle with two raw read children, for C3. -/
def c3handle2 : Handle :=
  ⟨"h2.fast5", 0, .closed, fun _ => none,
   some [⟨"read_0", none, none⟩, ⟨"read_1", none, none⟩], none⟩

/-- Handle whose metadata stores the start time in ISO UTC form, for C6. -/
def c6handleIso : Handle :=
  ⟨"iso.fast5", 0, .closed, fun _ => none, none,
   some ⟨some (.isoUTC 1489427934), none⟩⟩

/-- Handle whose metadata stores the start time as a raw integer, for C6. -/
def c6handleRaw : Handle :=
  ⟨"raw.fast5", 0, .closed, fun _ => none, none,
   some ⟨some (.rawInt 1489427934), none⟩⟩

/-- Handle whose metadata lacks the start-time attribute, for C6. -/
def c6handleNone : Handle :=
  ⟨"none.fast5", 0, .closed, fun _ => none, none, some ⟨none, none⟩⟩

/-- Handle with a known experiment start epoch of `0`, a single raw read
starting at sample `0` with duration `5` samples, and sample frequency
`4000`: both `get_start_time` and `get_duration` return values, but the
start time is `0`. -/
def c4handle : Handle :=
  ⟨"x.fast5", 0, .classic, fun _ => none,
   some [⟨"read_7", some 5, some 0⟩],
   some ⟨some (.rawInt 0), some 4000⟩⟩

/-- Handle with detected version `prebasecalled` whose container lacks the
event-detection path, for C5. -/
def c5handle : Handle :=
  ⟨"y.fast5", 0, .prebasecalled, fun _ => none, none, none⟩

/-- C1: For every container that opened successfully (modelled by its
path-existence predicate) and every group index `g`, `guess_version` probes
in the fixed order classic (`Basecall_2D` at index `g`), metrichor-1.16
(`Basecall_1D` at index `g`), r9rnn (`Basecall_RNN_1D`), returns the first
version whose probe path exists and `prebasecalled` when none does (equality
with the spec's first-found probe list); it is a pure function of the
container and index, so probing the same container twice yields the same
version; and a container exposing both a classic and a 1-D group resolves to
`classic`. -/
theorem guess_version_probe_order (exist : String → Bool) (g : Nat) :
    guess_version exist g = specFirstFound exist (specProbeOrder g)
    ∧ guess_version exist g = guess_version exist g
    ∧ guess_version
        (fun p => p = classicProbe g || p = metrichorProbe g) g
      = .classic := by
  refine ⟨rfl, rfl, ?_⟩
  simp [guess_version]

/-- C2: The path-resolution lookup keyed by (schema version, strand kind)
returns exactly the documented path template for every pair listed in the
§4.4 table — each rooted under `/Analyses` and, where a group slot is
present, formatting with index `g` inserts the zero-padded `fmt3 g` — and
returns an explicit `none`, never an error, for every pair not listed,
including every strand of the `closed` version. -/
theorem fastq_paths_table (g : Nat) :
    fastq_paths_lookup .classic "template"
      = some "/Analyses/Basecall_2D_\x7b:03d\x7d/BaseCalled_template"
    ∧ fastq_paths_lookup .classic "complement"
      = some "/Analyses/Basecall_2D_\x7b:03d\x7d/BaseCalled_complement"
    ∧ fastq_paths_lookup .classic "twodirections"
      = some "/Analyses/Basecall_2D_\x7b:03d\x7d/BaseCalled_2D"
    ∧ fastq_paths_lookup .classic "pre_basecalled"
      = some "/Analyses/EventDetection_000/Reads/"
    ∧ fastq_paths_lookup .metrichor116 "template"
      = some "/Analyses/Basecall_1D_\x7b:03d\x7d/BaseCalled_template"
    ∧ fastq_paths_lookup .metrichor116 "complement"
      = some "/Analyses/Basecall_1D_\x7b:03d\x7d/BaseCalled_complement"
    ∧ fastq_paths_lookup .metrichor116 "twodirections"
      = some "/Analyses/Basecall_2D_\x7b:03d\x7d/BaseCalled_2D"
    ∧ fastq_paths_lookup .metrichor116 "pre_basecalled"
      = some "/Analyses/EventDetection_000/Reads/"
    ∧ fastq_paths_lookup .r9rnn "template"
      = some "/Analyses/Basecall_RNN_1D_\x7b:03d\x7d/BaseCalled_template"
    ∧ fastq_paths_lookup .r9rnn "complement" = none
    ∧ fastq_paths_lookup .r9rnn "twodirections" = none
    ∧ fastq_paths_lookup .r9rnn "pre_basecalled" = none
    ∧ fastq_paths_lookup .prebasecalled "template" = none
    ∧ fastq_paths_lookup .prebasecalled "complement" = none
    ∧ fastq_paths_lookup .prebasecalled "twodirections" = none
    ∧ fastq_paths_lookup .prebasecalled "pre_basecalled"
      = some "/Analyses/EventDetection_000/Reads/"
    ∧ fastq_paths_lookup .closed "template" = none
    ∧ fastq_paths_lookup .closed "complement" = none
    ∧ fastq_paths_lookup .closed "twodirections" = none
    ∧ fastq_paths_lookup .closed "pre_basecalled" = none
    ∧ pyFormatBraces "/Analyses/Basecall_2D_\x7b:03d\x7d/BaseCalled_template" g
      = "/Analyses/Basecall_2D_" ++ fmt3 g ++ "/BaseCalled_template"
    ∧ pyFormatBraces "/Analyses/Basecall_2D_\x7b:03d\x7d/BaseCalled_complement" g
      = "/Analyses/Basecall_2D_" ++ fmt3 g ++ "/BaseCalled_complement"
    ∧ pyFormatBraces "/Analyses/Basecall_2D_\x7b:03d\x7d/BaseCalled_2D" g
      = "/Analyses/Basecall_2D_" ++ fmt3 g ++ "/BaseCalled_2D"
    ∧ pyFormatBraces "/Analyses/Basecall_1D_\x7b:03d\x7d/BaseCalled_template" g
      = "/Analyses/Basecall_1D_" ++ fmt3 g ++ "/BaseCalled_template"
    ∧ pyFormatBraces "/Analyses/Basecall_1D_\x7b:03d\x7d/BaseCalled_complement" g
      = "/Analyses/Basecall_1D_" ++ fmt3 g ++ "/BaseCalled_complement"
    ∧ pyFormatBraces "/Analyses/Basecall_RNN_1D_\x7b:03d\x7d/BaseCalled_template" g
      = "/Analyses/Basecall_RNN_1D_" ++ fmt3 g ++ "/BaseCalled_template"
    ∧ pyFormatBraces "/Analyses/EventDetection_000/Reads/" g
      = "/Analyses/EventDetection_000/Reads/"
    ∧ fmt3 7 = "007" ∧ fmt3 42 = "042" ∧ fmt3 123 = "123"
    ∧ fmt3 1234 = "1234" :=
  ⟨rfl, rfl, rfl, rfl, rfl, rfl, rfl, rfl, rfl, rfl, rfl, rfl, rfl, rfl, rfl,
   rfl, rfl, rfl, rfl, rfl, rfl, rfl, rfl, rfl, rfl, rfl, rfl, rfl, rfl, rfl,
   rfl⟩

/-- C7: The claim (one staged path per matching entry, in archive order; for
`a.fast5`, `.hidden.fast5`, `b.txt`, `b.fast5` exactly `a.fast5` then
`b.fast5`) states the loop body's evident intent — the spec's §4.2, the
source's filename filter and its dead Python-2 `None` guard — but the
Python-3 code it describes is broken: builtin `next` on a `tarfile.TarFile`
raises `TypeError` on the very first pull, so draining the iterator stages
*no* entries for any archive.  This theorem evaluates both sides of the
divergence: the code's pull always raises and every drain of it stages
nothing, while the intended loop body is exactly filter-then-stage and would
stage `a.fast5` then `b.fast5` — which differs from what the code stages. -/
theorem tarball_iteration_py3_bug (n : Nat) (entries : List String) :
    tarballFileIteratorNextPy3
      = .error (.exc "TypeError: TarFile object is not an iterator")
    ∧ drainStagedPaths (List.replicate n tarballFileIteratorNextPy3) = []
    ∧ tarballStagedPathsIntended entries
      = (entries.filter fast5_filename_filter).map
          (fun nm => PORETOOLS_TMPDIR ++ "/" ++ nm)
    ∧ tarballStagedPathsIntended ["a.fast5", ".hidden.fast5", "b.txt", "b.fast5"]
      = [".poretools_tmp/a.fast5", ".poretools_tmp/b.fast5"]
    ∧ ([] : List String)
      ≠ [".poretools_tmp/a.fast5", ".poretools_tmp/b.fast5"] := by
  refine ⟨rfl, ?_, ?_, by decide, by decide⟩
  · cases n <;> rfl
  · induction entries with
    | nil => rfl
    | cons nm rest ih =>
      by_cases hf : fast5_filename_filter nm <;>
        simp [tarballStagedPathsIntended, List.filter, hf, ih]

/-- C10: `get_template_events_count` and `get_complement_events_count` return
`0` — never an absent value, never an exception (their result type is `Nat`) —
for *every* handle: either the strand's path is unmapped for the detected
schema (`closed`, `prebasecalled`, and `r9rnn`'s complement), or the
old-style `%` formatting of a `\x7b:03d\x7d` template raises `TypeError`
inside the `try`, so the events table is never readable through this path;
consequently `is_high_quality` returns `true` on every handle, `0 ≥ 0`. -/
theorem events_counts_always_zero (h : Handle) :
    get_template_events_count h = 0
    ∧ get_complement_events_count h = 0
    ∧ is_high_quality h = true := by
  rcases h with ⟨fn, g, v, h5, rr, ki⟩
  cases v <;> exact ⟨rfl, rfl, rfl⟩

/-- C3: For a handle whose container has a `Raw/Reads` group: zero children
(`h0`) or more than one child (`h2`) terminates the process with the
structural diagnostic built by `hdf_internal_error`, which embeds the
offending file's name; exactly one child (`h1`) resolves to that child, and
the duration and start-time sample counts read from it are divided by the
sample frequency obtained from metadata (`get_duration` as an exact
rational, `get_start_time` truncated to whole seconds and offset by the
experiment start epoch). -/
theorem raw_reads_invariant (h0 h1 h2 : Handle) (r a b : RawChild)
    (rest : List RawChild) (k : Keyinfo) (d st f e : Nat)
    (h0r : h0.rawReads = some [])
    (h2r : h2.rawReads = some (a :: b :: rest))
    (h1r : h1.rawReads = some [r])
    (hd : r.duration = some d) (hst : r.start_time = some st)
    (hk : h1.keyinfo = some k) (hf : k.sample_frequency = some f)
    (hf0 : f ≠ 0) (he : k.exp_start_time = some (.rawInt e)) :
    find_read_number_block_fixed_raw h0 = .error (.sysExit
      (hdf_internal_error_msg h0.filename
        "Raw/Reads group does not contain any items"))
    ∧ find_read_number_block_fixed_raw h2 = .error (.sysExit
      (hdf_internal_error_msg h2.filename
        "Raw/Reads group contains more than one item"))
    ∧ find_read_number_block_fixed_raw h1 = .ok (some r)
    ∧ get_duration h1 = .ok (some ((d : ℚ) / (f : ℚ)))
    ∧ get_start_time h1 = .ok (some (e + st / f)) := by
  refine ⟨?_, ?_, ?_, ?_, ?_⟩ <;>
    simp [find_read_number_block_fixed_raw, get_duration, get_start_time,
      get_exp_start_time, get_sample_frequency, h0r, h2r, h1r, hd, hst, hk,
      hf, he, hf0]

/-- C3 witness: the invariant theorem applied at concrete handles — empty
group exits, two children exit, one child yields duration `5 / 4000` seconds
and start time `100 + 8000 / 4000 = 102`. -/
theorem raw_reads_invariant_witness :
    find_read_number_block_fixed_raw c3handle0 = .error (.sysExit
      (hdf_internal_error_msg "h0.fast5"
        "Raw/Reads group does not contain any items"))
    ∧ find_read_number_block_fixed_raw c3handle2 = .error (.sysExit
      (hdf_internal_error_msg "h2.fast5"
        "Raw/Reads group contains more than one item"))
    ∧ find_read_number_block_fixed_raw c3handle1
      = .ok (some ⟨"read_7", some 5, some 8000⟩)
    ∧ get_duration c3handle1 = .ok (some ((5 : ℚ) / (4000 : ℚ)))
    ∧ get_start_time c3handle1 = .ok (some 102) :=
  raw_reads_invariant c3handle0 c3handle1 c3handle2
    ⟨"read_7", some 5, some 8000⟩ ⟨"read_0", none, none⟩
    ⟨"read_1", none, none⟩ [] ⟨some (.rawInt 100), some 4000⟩
    5 8000 4000 100 rfl rfl rfl rfl rfl rfl rfl (by decide) rfl

/-- C6: For every handle with a resolved metadata root, the experiment start
time accessor returns an integer epoch in both storage forms — an ISO-8601
UTC-suffixed attribute is detected by its `Z` suffix and converted to the
integer epoch its parse yields, a raw attribute is parsed directly as an
integer Unix timestamp — both forms of the same instant give the same
integer epoch result, and a missing attribute yields an absent result. -/
theorem exp_start_time_forms (h1 h2 h3 : Handle) (k1 k2 k3 : Keyinfo)
    (e : Nat)
    (hk1 : h1.keyinfo = some k1) (he1 : k1.exp_start_time = some (.isoUTC e))
    (hk2 : h2.keyinfo = some k2) (he2 : k2.exp_start_time = some (.rawInt e))
    (hk3 : h3.keyinfo = some k3) (he3 : k3.exp_start_time = none) :
    get_exp_start_time h1 = .ok (some e)
    ∧ get_exp_start_time h2 = .ok (some e)
    ∧ get_exp_start_time h3 = .ok none := by
  refine ⟨?_, ?_, ?_⟩ <;>
    simp [get_exp_start_time, hk1, he1, hk2, he2, hk3, he3]

/-- C6 witness: both storage forms of the same instant produce the same
integer epoch `1489427934`, and a missing attribute produces `none`. -/
theorem exp_start_time_forms_witness :
    get_exp_start_time c6handleIso = .ok (some 1489427934)
    ∧ get_exp_start_time c6handleRaw = .ok (some 1489427934)
    ∧ get_exp_start_time c6handleNone = .ok none :=
  exp_start_time_forms c6handleIso c6handleRaw c6handleNone
    ⟨some (.isoUTC 1489427934), none⟩ ⟨some (.rawInt 1489427934), none⟩
    ⟨none, none⟩ 1489427934 rfl rfl rfl rfl rfl rfl

/-- C4 counterexample: on `c4handle`, `get_start_time` returns the non-absent
value `0` and `get_duration` the non-absent value `5 / 4000`, yet
`get_end_time` returns an absent result, not their sum — the source guards
the sum with Python truthiness of the start time (`if start_time and ...`),
so a known start time of `0` is treated as missing, contradicting the claim
that any pair of non-absent values yields `start + duration`. -/
theorem get_end_time_zero_start_counterexample :
    get_start_time c4handle = .ok (some 0)
    ∧ get_duration c4handle = .ok (some ((5 : ℚ) / 4000))
    ∧ get_end_time c4handle = .ok none
    ∧ (Except.ok none : Except PErr (Option ℚ))
      ≠ .ok (some ((0 : ℚ) + (5 : ℚ) / 4000)) := by
  refine ⟨rfl, rfl, rfl, ?_⟩
  simp

/-- C4 amended: whenever `get_start_time` and `get_duration` both return
(without raising), `get_end_time` returns `start + duration` exactly when the
start time is non-absent *and non-zero* and the duration is non-absent — a
duration of exactly zero still counts as non-absent — and returns an absent
result otherwise, including the boundary case of a known start time equal to
`0`. -/
theorem get_end_time_amended (h : Handle) (ost : Option Nat)
    (odur : Option ℚ)
    (hs : get_start_time h = .ok ost) (hd : get_duration h = .ok odur) :
    get_end_time h = .ok (endTimeOfParts ost odur) := by
  cases hge : get_exp_start_time h with
  | error e =>
    exfalso
    unfold get_start_time at hs
    rw [hge] at hs
    exact absurd hs (by simp)
  | ok oe =>
    unfold get_end_time
    rw [hge, hs, hd]
    rfl

/-- C4 witness: the amended theorem applied at `c4handle` — both accessors
return values, the start time is `0`, and the end time is absent. -/
theorem get_end_time_amended_witness : get_end_time c4handle = .ok none :=
  get_end_time_amended c4handle (some 0) (some ((5 : ℚ) / 4000)) rfl rfl

/-- C5 counterexample: for `c5handle`, the `pre_basecalled` strand *is*
present in the path-resolution table for the detected schema, yet a missing
path makes `_extract_pre_basecalled_events` raise `KeyError` to the caller —
its `try`/`except` is commented out in the source — contradicting the claim
that a failure to extract any strand listed for the schema (including the
pre-basecalled strand) is caught inside the extraction routine. -/
theorem pre_basecalled_extraction_counterexample :
    fastq_paths_lookup SchemaVersion.prebasecalled "pre_basecalled"
      = some "/Analyses/EventDetection_000/Reads/"
    ∧ extract_pre_basecalled_events c5handle
      = .error (.exc "KeyError: /Analyses/EventDetection_000/Reads/") :=
  ⟨rfl, rfl⟩

/-- C5 amended: a failure to extract one strand during FASTQ or FASTA
extraction is caught inside the loop, logged as a warning naming the
offending *file* (the message does not name the strand) and the strand is
omitted, with the remaining strands' results unaffected; but pre-basecalled
event extraction is unprotected — a missing container path for a
`pre_basecalled` entry listed for the detected schema raises `KeyError` to
the caller. -/
theorem strand_extraction_amended (h hp : Handle)
    (id tmpl m m2 p : String) (rest : List (String × String))
    (hq : extractStrandFastq h tmpl = .failed m)
    (ha : extractStrandFasta h tmpl = .failed m2)
    (hpp : fastq_paths_lookup hp.version "pre_basecalled" = some p)
    (hph : hp.h5 p = none) :
    extractFastqsLoop h ((id, tmpl) :: rest)
      = ((extractFastqsLoop h rest).1,
         warnFastq h.filename m :: (extractFastqsLoop h rest).2)
    ∧ extractFastasLoop h ((id, tmpl) :: rest)
      = ((extractFastasLoop h rest).1,
         warnFasta h.filename m2 :: (extractFastasLoop h rest).2)
    ∧ extract_pre_basecalled_events hp = .error (.exc ("KeyError: " ++ p)) := by
  refine ⟨?_, ?_, ?_⟩
  · simp [extractFastqsLoop, hq]
  · simp [extractFastasLoop, ha]
  · simp [extract_pre_basecalled_events, hpp, hph]

/-- C5 witness: at `c5handle` — a FASTQ strand failure (missing path) and a
FASTA strand failure (the `%`-formatting `TypeError`) are each turned into
one warning naming the file, with nothing extracted and no exception; the
pre-basecalled routine, in contrast, propagates `KeyError`. -/
theorem strand_extraction_amended_witness :
    extractFastqsLoop c5handle
      [("template", "/Analyses/Basecall_2D_\x7b:03d\x7d/BaseCalled_template")]
      = ([], [warnFastq "y.fast5"
          "KeyError: /Analyses/Basecall_2D_000/BaseCalled_template"])
    ∧ extractFastasLoop c5handle
      [("template", "/Analyses/Basecall_2D_\x7b:03d\x7d/BaseCalled_template")]
      = ([], [warnFasta "y.fast5"
          "not all arguments converted during string formatting"])
    ∧ extract_pre_basecalled_events c5handle
      = .error (.exc ("KeyError: " ++ "/Analyses/EventDetection_000/Reads/")) :=
  strand_extraction_amended c5handle c5handle "template"
    "/Analyses/Basecall_2D_\x7b:03d\x7d/BaseCalled_template"
    "KeyError: /Analyses/Basecall_2D_000/BaseCalled_template"
    "not all arguments converted during string formatting"
    "/Analyses/EventDetection_000/Reads/" [] rfl rfl rfl rfl

/-- C8 counterexample: when the staging directory is already absent and the
pull raises (here: plain exhaustion), the tarball enumerator's `__next__`
calls `shutil.rmtree` on the missing directory, whose `FileNotFoundError`
propagates to the caller instead of the `StopIteration` — removal is *not*
idempotent and exhaustion is *not* signaled, contradicting the claim. -/
theorem tarball_cleanup_counterexample :
    fast5set_next FAST5SET_TARBALL false (.error (.exc "StopIteration"))
      = .exc (.exc "FileNotFoundError") false
    ∧ NextRes.exc (.exc "FileNotFoundError") false ≠ .stop false
    ∧ NextRes.exc (.exc "FileNotFoundError") false ≠ .stop true :=
  ⟨rfl, by decide, by decide⟩

/-- C8 amended: whenever the path sequence is exhausted or handle
construction raises, a tarball enumerator removes the staging directory and
then signals exhaustion *provided the directory still exists*; when the
directory is already absent, `shutil.rmtree`'s `FileNotFoundError`
propagates in place of the exhaustion signal; non-archive kinds signal
exhaustion without touching the directory. -/
theorem tarball_cleanup_amended (pull : Except PErr String) (e : PErr)
    (st : Nat) (tmp : Bool)
    (hp : pull = .error e) (hst : st ≠ FAST5SET_TARBALL) :
    fast5set_next FAST5SET_TARBALL true pull = .stop false
    ∧ fast5set_next FAST5SET_TARBALL false pull
      = .exc (.exc "FileNotFoundError") false
    ∧ fast5set_next st tmp pull = .stop tmp := by
  subst hp
  refine ⟨rfl, rfl, ?_⟩
  simp [fast5set_next, hst]

/-- C8 witness: the amended theorem at a concrete exhausted pull — an
existing staging directory is removed and exhaustion signaled, an absent one
raises, and a file-list enumerator stops leaving the state alone. -/
theorem tarball_cleanup_amended_witness :
    fast5set_next FAST5SET_TARBALL true (.error (.exc "StopIteration"))
      = .stop false
    ∧ fast5set_next FAST5SET_TARBALL false (.error (.exc "StopIteration"))
      = .exc (.exc "FileNotFoundError") false
    ∧ fast5set_next FAST5SET_FILELIST true (.error (.exc "StopIteration"))
      = .stop true :=
  tarball_cleanup_amended (.error (.exc "StopIteration"))
    (.exc "StopIteration") FAST5SET_FILELIST true rfl (by decide)

/-- C9 counterexample: for an archive holding the single entry `a.fast5`,
the count query answers `1` — `TarballFileIterator.__len__` counts *all*
`tar.getnames()` entries, immediately whenever asked, not only after
exhaustion — while the number of entries actually extracted is `0`: every
pull is the builtin-`next` `TypeError` (see `tarballFileIteratorNextPy3`),
so the drain stages nothing.  The claim's "exactly the number of archive
entries actually extracted" fails: `some 1 ≠ some 0`. -/
theorem tarball_count_counterexample :
    initSet (.tarball ["a.fast5"]) = (FAST5SET_TARBALL, none)
    ∧ get_num_files FAST5SET_TARBALL none ["a.fast5"] = some 1
    ∧ drainStagedPaths [tarballFileIteratorNextPy3] = []
    ∧ (drainStagedPaths [tarballFileIteratorNextPy3]).length = 0
    ∧ (some 1 : Option Nat) ≠ some 0 :=
  ⟨rfl, by decide, rfl, rfl, by decide⟩

/-- C9 amended: the list, directory and single-file kinds know their count at
construction (list length, number of walked files, and `1`); the archive
kind's cached count starts unknown (`None`), and the count query — whenever
it is asked, drained or not — computes and returns the *total* number of
archive entries, matching or not, while a non-`None` cache is returned
unchanged for every kind. -/
theorem file_counts_amended (ps ws es : List String) (p : String)
    (st n : Nat) :
    initSet (.filelist ps) = (FAST5SET_FILELIST, some ps.length)
    ∧ initSet (.directory ws) = (FAST5SET_DIRECTORY, some ws.length)
    ∧ initSet (.singlefile p) = (FAST5SET_SINGLEFILE, some 1)
    ∧ initSet (.tarball es) = (FAST5SET_TARBALL, none)
    ∧ get_num_files FAST5SET_TARBALL none es = some (tarball_len es)
    ∧ get_num_files st (some n) es = some n := by
  refine ⟨rfl, rfl, rfl, rfl, ?_, ?_⟩ <;> simp [get_num_files]
